import Mathlib

/-!
Verification development for the proxy pool & failover dispatch engine.

The Lean definitions below are a shallow embedding of the Python sources:
* `services/failover_manager.py` (class `FailoverManager`),
* `config/api_proxy_pool.py` (class `ApiProxyPool`),
* `utils/utils.py` (class `SimpleCache` and function `extract_answer`).

Modelling conventions:
* Python `dict`s become association lists (`List (String × α)`) with
  insertion-order-preserving update (`setKey`) and first-match lookup
  (`lookupKey`); the sources never create duplicate keys.
* Wall-clock timestamps (`time.time()`, `datetime.now()`) become an explicit
  `now : Int` argument threaded through every operation, in seconds.
* The float `failure_rate = recent_failures / total_requests` becomes exact
  rational arithmetic in `ℚ`; all quantities involved are small integers, so
  the float comparison against `0.5` agrees with the exact one.
* `threading.Lock` is non-reentrant; methods that acquire it are modelled
  with an explicit `lockHeld` flag, and acquiring the lock while it is
  already held by the same thread blocks forever, modelled as `none`.
* Python strings become `List Char` (for the answer normalizer, where
  character-level operations matter) or `String` (elsewhere); `str.strip()`
  is modelled on the ASCII whitespace characters, and `str.lower()` /
  `str.upper()` on ASCII letters, which is all the analyzed inputs use.
-/

/-! ## Association-list helpers (Python `dict` operations) -/

/-- Lookup in an association list, mirroring Python `d[k]` / `d.get(k)`. -/
def lookupKey {α : Type} : List (String × α) → String → Option α
  | [], _ => none
  | (k', v) :: rest, k => if k' = k then some v else lookupKey rest k

/-- Update in an association list, mirroring Python `d[k] = v`: replaces the
existing binding in place, or appends a new one. -/
def setKey {α : Type} : List (String × α) → String → α → List (String × α)
  | [], k, v => [(k, v)]
  | (k', v') :: rest, k, v =>
    if k' = k then (k, v) :: rest else (k', v') :: setKey rest k v

/-- Deletion from an association list, mirroring Python `del d[k]`. -/
def eraseKey {α : Type} : List (String × α) → String → List (String × α)
  | [], _ => []
  | (k', v') :: rest, k => if k' = k then rest else (k', v') :: eraseKey rest k

theorem lookupKey_setKey_self {α : Type} (m : List (String × α)) (k : String) (v : α) :
    lookupKey (setKey m k v) k = some v := by
  induction m with
  | nil => simp [setKey, lookupKey]
  | cons hd tl ih =>
    obtain ⟨k', v'⟩ := hd
    by_cases h : k' = k
    · simp [setKey, lookupKey, h]
    · simp [setKey, lookupKey, h, ih]

theorem lookupKey_setKey_ne {α : Type} (m : List (String × α)) (k k' : String) (v : α)
    (h : k ≠ k') : lookupKey (setKey m k v) k' = lookupKey m k' := by
  induction m with
  | nil => simp [setKey, lookupKey, h]
  | cons hd tl ih =>
    obtain ⟨k₀, v₀⟩ := hd
    by_cases h1 : k₀ = k
    · subst h1
      simp [setKey, lookupKey, h]
    · by_cases h2 : k₀ = k'
      · simp [setKey, lookupKey, h1, h2, Ne.symm h]
      · simp [setKey, lookupKey, h1, h2, ih]

theorem lookupKey_mem {α : Type} {m : List (String × α)} {k : String} {v : α}
    (h : lookupKey m k = some v) : (k, v) ∈ m := by
  induction m with
  | nil => simp [lookupKey] at h
  | cons hd tl ih =>
    obtain ⟨k₀, v₀⟩ := hd
    rw [lookupKey] at h
    by_cases h1 : k₀ = k
    · rw [if_pos h1] at h
      subst h1
      obtain rfl : v₀ = v := by simpa using h
      exact List.mem_cons_self _ _
    · rw [if_neg h1] at h
      exact List.mem_cons_of_mem _ (ih h)

/-! ## FailoverManager (services/failover_manager.py)

Configuration constants from `FailoverManager.__init__`. -/

def max_failures : Nat := 3

def failure_window : Int := 300

def recovery_time : Int := 600

def circuit_breaker_threshold : ℚ := 1/2

def min_requests_for_circuit_breaker : Nat := 10

/-- Health status strings stored in `self.proxy_health[...]['status']` and in
diagnostic snapshots. -/
inductive PStatus where
  | healthy
  | degraded
  | unhealthy
  | recovering
  | unknown
deriving DecidableEq

/-- One value of the `self.proxy_health` dict.  `record_success` and
`record_failure` each replace the whole dict value, each writing a different
set of keys; keys absent from the current value are modelled as `none`. -/
structure HealthInfo where
  status : PStatus
  lastSuccess : Option Int := none
  lastFailure : Option Int := none
  consecutiveFailures : Nat := 0
  totalSuccesses : Option Nat := none
  recentFailures : Option Nat := none
  lastError : Option (Option String) := none
deriving DecidableEq

/-- State of a `FailoverManager` instance.  `failure_counts` / `success_counts`
store only the `'time'` field of each recorded entry: the `'error'` and
`'response_time'` fields of those entries are written but never read by any
method.  `response_times` entries are only appended with a non-`None`
response time, so they are modelled as `Int × ℚ` pairs. -/
structure FailoverManager where
  enabled : Bool := true
  proxyHealth : List (String × HealthInfo) := []
  failureCounts : List (String × List Int) := []
  successCounts : List (String × List Int) := []
  responseTimes : List (String × List (Int × ℚ)) := []
deriving DecidableEq

/-- The state built by `FailoverManager.__init__`. -/
def initFM : FailoverManager := {}

/-- `FailoverManager.record_success(proxy_name, response_time)` at wall-clock
time `now`. -/
def record_success (fm : FailoverManager) (p : String) (now : Int)
    (responseTime : Option ℚ) : FailoverManager :=
  let ss := ((lookupKey fm.successCounts p).getD []) ++ [now]
  let ss := ss.filter (fun t => now - failure_window < t)
  let rts :=
    match responseTime with
    | none => fm.responseTimes
    | some rt =>
      let l := ((lookupKey fm.responseTimes p).getD []) ++ [(now, rt)]
      let l := if 100 < l.length then l.drop (l.length - 100) else l
      setKey fm.responseTimes p l
  { fm with
    successCounts := setKey fm.successCounts p ss
    responseTimes := rts
    proxyHealth := setKey fm.proxyHealth p
      { status := .healthy
        lastSuccess := some now
        consecutiveFailures := 0
        totalSuccesses := some ss.length } }

/-- `FailoverManager.record_failure(proxy_name, error_message)` at wall-clock
time `now`. -/
def record_failure (fm : FailoverManager) (p : String) (now : Int)
    (err : Option String) : FailoverManager :=
  let fs := ((lookupKey fm.failureCounts p).getD []) ++ [now]
  let fs := fs.filter (fun t => now - failure_window < t)
  let consec := (((lookupKey fm.proxyHealth p).map (·.consecutiveFailures)).getD 0) + 1
  { fm with
    failureCounts := setKey fm.failureCounts p fs
    proxyHealth := setKey fm.proxyHealth p
      { status := if max_failures ≤ fs.length then .unhealthy else .degraded
        lastFailure := some now
        consecutiveFailures := consec
        recentFailures := some fs.length
        lastError := some err } }

/-- Number of entries of `m[p]` whose time lies inside the failure window
ending at `now` (the repeated `[x for x in ... if x['time'] > cutoff_time]`
pattern). -/
def recent_count (m : List (String × List Int)) (p : String) (now : Int) : Nat :=
  (((lookupKey m p).getD []).filter (fun t => now - failure_window < t)).length

/-- `FailoverManager._is_circuit_breaker_open(proxy_name)` at time `now`. -/
def is_circuit_breaker_open (fm : FailoverManager) (p : String) (now : Int) : Bool :=
  let recentFailures := recent_count fm.failureCounts p now
  let recentSuccesses := recent_count fm.successCounts p now
  let totalRequests := recentFailures + recentSuccesses
  if totalRequests < min_requests_for_circuit_breaker then false
  else decide (circuit_breaker_threshold ≤ (recentFailures : ℚ) / (totalRequests : ℚ))

/-- The tail of `FailoverManager.is_proxy_healthy`: the circuit-breaker check
followed by the recent-failure-count check, reached when the proxy has no
health entry or its status is not `'unhealthy'`. -/
def health_check_tail (fm : FailoverManager) (p : String) (now : Int) : Bool :=
  if is_circuit_breaker_open fm p now then false
  else
    match lookupKey fm.failureCounts p with
    | some fs => decide ((fs.filter (fun t => now - failure_window < t)).length < max_failures)
    | none => true

/-- `FailoverManager.is_proxy_healthy(proxy_name)` at time `now`.  The method
can mutate the state (the `'unhealthy' → 'recovering'` transition), so it
returns the decision together with the updated state. -/
def is_proxy_healthy (fm : FailoverManager) (p : String) (now : Int) :
    Bool × FailoverManager :=
  if fm.enabled then
    match lookupKey fm.proxyHealth p with
    | some hi =>
      if hi.status = .unhealthy then
        match hi.lastFailure with
        | some lf =>
          if recovery_time < now - lf then
            (true, { fm with proxyHealth := setKey fm.proxyHealth p { hi with status := .recovering } })
          else (false, fm)
        | none => (false, fm)
      else (health_check_tail fm p now, fm)
    | none => (health_check_tail fm p now, fm)
  else (true, fm)

/-- Diagnostic snapshot returned by `FailoverManager.get_proxy_health_status`.
The Python function returns a dict: the first six fields are the copied
`proxy_health` entry (absent keys as `none`), the rest are computed and
overwrite any copied value.  `successRate` is a percentage. -/
structure HealthSnapshot where
  status : PStatus
  lastSuccess : Option Int := none
  lastFailure : Option Int := none
  consecutiveFailures : Nat := 0
  totalSuccesses : Option Nat := none
  lastError : Option (Option String) := none
  recentFailures : Nat := 0
  recentSuccesses : Nat := 0
  successRate : ℚ := 0
  avgResponseTime : ℚ := 0
  circuitBreakerOpen : Bool := false
deriving DecidableEq

/-- Body of `FailoverManager.get_proxy_health_status` (inside the lock). -/
def get_proxy_health_status_body (fm : FailoverManager) (p : String) (now : Int) :
    HealthSnapshot :=
  match lookupKey fm.proxyHealth p with
  | none =>
    { status := .unknown
      consecutiveFailures := 0
      recentFailures := 0
      recentSuccesses := 0
      successRate := 0
      avgResponseTime := 0
      circuitBreakerOpen := false }
  | some hi =>
    let recentFailures := recent_count fm.failureCounts p now
    let recentSuccesses := recent_count fm.successCounts p now
    let totalRequests := recentFailures + recentSuccesses
    let successRate : ℚ :=
      if 0 < totalRequests then ((recentSuccesses : ℚ) / (totalRequests : ℚ)) * 100 else 0
    let rts := ((lookupKey fm.responseTimes p).getD []).filter
      (fun e => now - failure_window < e.1)
    let avgResponseTime : ℚ :=
      if rts.length ≠ 0 then ((rts.map (·.2)).sum) / (rts.length : ℚ) else 0
    { status := hi.status
      lastSuccess := hi.lastSuccess
      lastFailure := hi.lastFailure
      consecutiveFailures := hi.consecutiveFailures
      totalSuccesses := hi.totalSuccesses
      lastError := hi.lastError
      recentFailures := recentFailures
      recentSuccesses := recentSuccesses
      successRate := successRate
      avgResponseTime := avgResponseTime
      circuitBreakerOpen := is_circuit_breaker_open fm p now }

/-- `FailoverManager.get_proxy_health_status(proxy_name)`.  The method starts
with `with self.lock:`; `threading.Lock` is non-reentrant, so calling it while
the same thread already holds the lock blocks forever (`none`). -/
def get_proxy_health_status (fm : FailoverManager) (p : String) (now : Int)
    (lockHeld : Bool) : Option HealthSnapshot :=
  if lockHeld then none else some (get_proxy_health_status_body fm p now)

/-- Result of `FailoverManager.get_all_health_status` (the `'config'` entry of
the returned dict holds only the constants above and is omitted). -/
structure AllHealthStatus where
  enabled : Bool
  proxies : List (String × HealthSnapshot)
deriving DecidableEq

/-- `FailoverManager.get_all_health_status` at time `now`.  The method takes
`self.lock` and then, for every name in `self.proxy_health`, calls
`self.get_proxy_health_status(name)` — which tries to take the same
non-reentrant lock again, i.e. runs with `lockHeld := true`. -/
def get_all_health_status (fm : FailoverManager) (now : Int) : Option AllHealthStatus :=
  (fm.proxyHealth.mapM fun e =>
    (get_proxy_health_status fm e.1 now true).map (fun h => (e.1, h))).map
    (fun l => { enabled := fm.enabled, proxies := l })

/-! ## ApiProxyPool (config/api_proxy_pool.py) -/

/-- The `@dataclass ApiProxy`. -/
structure ApiProxy where
  name : String
  api_base : String
  api_keys : List String
  model : String
  models : List String
  is_active : Bool := true
  priority : Int := 1
deriving DecidableEq

/-- One JSON record of the `third_party_apis` list (or of
`Config.THIRD_PARTY_APIS`): every field may be absent. -/
structure ProxyRecord where
  name : Option String := none
  api_base : Option String := none
  api_keys : Option (List String) := none
  model : Option String := none
  models : Option (List String) := none
  is_active : Option Bool := none
  priority : Option Int := none
deriving DecidableEq

/-- The `ApiProxy(...)` construction inside `load_proxies`: every missing
field is replaced by a default via `proxy_config.get(...)`. -/
def buildProxy (r : ProxyRecord) : ApiProxy :=
  { name := r.name.getD "Unknown API"
    api_base := r.api_base.getD ""
    api_keys := r.api_keys.getD []
    model := r.model.getD ""
    models := r.models.getD []
    is_active := r.is_active.getD true
    priority := r.priority.getD 1 }

/-- What `load_proxies` observes of the outside world: either `config.json`
was read and parsed (`fileOk`), or reading it raised and the
`Config.THIRD_PARTY_APIS` fallback list is used (`fileError`), or the outer
`try` body raised (`fatal`). -/
inductive LoadSource where
  | fileOk (records : List ProxyRecord)
  | fileError (fallback : List ProxyRecord)
  | fatal
deriving DecidableEq

structure ApiProxyPool where
  proxies : List ApiProxy
deriving DecidableEq

/-- `ApiProxyPool.load_proxies`.  `self.proxies.sort(key=lambda x: x.priority)`
is a stable sort by priority, modelled with `List.insertionSort`; the outer
`except` branch sets `self.proxies = []`. -/
def load_proxies (_pool : ApiProxyPool) (src : LoadSource) : ApiProxyPool :=
  match src with
  | .fileOk rs | .fileError rs =>
    { proxies := (rs.map buildProxy).insertionSort (fun a b => a.priority ≤ b.priority) }
  | .fatal => { proxies := [] }

/-- `ApiProxyPool.reload_config` just calls `load_proxies` again. -/
def reload_config (pool : ApiProxyPool) (src : LoadSource) : ApiProxyPool :=
  load_proxies pool src

/-! ## SimpleCache (utils/utils.py)

The cache key is `md5(f"{question}|{question_type}|{options}")`.  Equal
content strings give equal keys, so the cache is modelled keyed by the
pre-hash content string itself (md5 is treated as collision-free; the
delimiter-level collisions studied below happen before hashing, on the
content string, and therefore survive any injective hash). -/

/-- The content string of `SimpleCache._generate_key`. -/
def simple_cache_key (question question_type options : String) : String :=
  question ++ "|" ++ question_type ++ "|" ++ options

/-- State of a `SimpleCache`: the `self.cache` dict maps the key to the
`(timestamp, value)` pair, plus the configured expiration (86400 s default). -/
structure SimpleCache where
  cache : List (String × (Int × String)) := []
  expiration : Int := 86400
deriving DecidableEq

/-- `SimpleCache.set(question, answer, question_type, options)` at `now`. -/
def cache_set (c : SimpleCache) (question answer question_type options : String)
    (now : Int) : SimpleCache :=
  { c with cache := setKey c.cache (simple_cache_key question question_type options) (now, answer) }

/-- `SimpleCache.get(question, question_type, options)` at `now`; expired
entries are deleted on read, so the (possibly updated) state is returned
alongside the answer. -/
def cache_get (c : SimpleCache) (question question_type options : String)
    (now : Int) : Option String × SimpleCache :=
  let key := simple_cache_key question question_type options
  match lookupKey c.cache key with
  | some (timestamp, value) =>
    if now - timestamp < c.expiration then (some value, c)
    else (none, { c with cache := eraseKey c.cache key })
  | none => (none, c)

/-! ## extract_answer (utils/utils.py)

Text is modelled as `List Char`.  `str.strip()` is modelled on the ASCII
whitespace characters (all inputs of interest are ASCII/CJK text, and CJK
characters are not whitespace); `str.lower()`/`str.upper()` via
`Char.toLower`/`Char.toUpper`, which act on ASCII letters — the only
cased characters in the synonym and option-letter sets. -/

/-- ASCII whitespace, as stripped by `str.strip()`. -/
def pyIsSpace (c : Char) : Bool :=
  c = ' ' || c = '\t' || c = '\n' || c = '\r' || c = '\x0b' || c = '\x0c'

/-- `str.strip()`: drop whitespace from the front, then from the back. -/
def pyStrip (s : List Char) : List Char :=
  (s.dropWhile pyIsSpace).rdropWhile pyIsSpace

/-- Python's `sub in s` substring test. -/
def containsSeq (pat s : List Char) : Bool :=
  decide (pat <:+: s)

/-- Python's `s.split(sep)` for a non-empty separator, with explicit fuel
(the fuel is always sufficient: each step consumes at least one character). -/
def splitOnSeqFuel (sep : List Char) : Nat → List Char → List Char → List (List Char)
  | 0, s, acc => [acc.reverse ++ s]
  | _ + 1, [], acc => [acc.reverse]
  | fuel + 1, c :: rest, acc =>
    if decide (sep <+: (c :: rest)) ∧ sep ≠ [] then
      acc.reverse :: splitOnSeqFuel sep fuel ((c :: rest).drop sep.length) []
    else
      splitOnSeqFuel sep fuel rest (c :: acc)

def splitOnSeq (sep s : List Char) : List (List Char) :=
  splitOnSeqFuel sep (s.length + 1) s []

/-- `'#'.join(parts)`. -/
def joinHash (parts : List (List Char)) : List Char :=
  (parts.intersperse ['#']).flatten

/-- The separators `['、', '；', ';', '和', '以及']` used for multiple-answer
splitting. -/
def multSeps : List (List Char) :=
  [['、'], ['；'], [';'], ['和'], "以及".data]

/-- The `for sep in [...]` loop of the multiple-answer branch: the first
separator present in the response that yields more than one non-blank part
wins; otherwise the loop falls through. -/
def trySeps : List (List Char) → List Char → Option (List Char)
  | [], _ => none
  | sep :: rest, response =>
    if containsSeq sep response then
      let parts := ((splitOnSeq sep response).map pyStrip).filter (· ≠ [])
      if 1 < parts.length then some (joinHash parts) else trySeps rest response
    else trySeps rest response

/-- The allowed-character set `'ABCDEF,#，、 '` of the letters-only test. -/
def multAllowedChars : List Char := "ABCDEF,#，、 ".data

/-- The option letters `'ABCDEF'`. -/
def optionLetters : List Char := "ABCDEF".data

/-- The second half of the multiple-answer branch: separator-based splitting
when no `'#'` is present, else fall through to the raw response. -/
def multSepTail (response : List Char) : List Char :=
  if !containsSeq ['#'] response && multSeps.any (fun sep => containsSeq sep response) then
    match trySeps multSeps response with
    | some r => r
    | none => response
  else response

/-- The `question_type == "multiple"` branch of `extract_answer`, applied to
the stripped response. -/
def extractMultiple (response : List Char) : List Char :=
  let lettersOnly := response.all (fun c => multAllowedChars.contains c.toUpper)
  let anyLetter := response.any (fun c => optionLetters.contains c.toUpper)
  if lettersOnly && anyLetter then
    let letters := (response.map Char.toUpper).filter (fun c => 'A' ≤ c && c ≤ 'F')
    if letters ≠ [] then joinHash (letters.map (fun c => [c]))
    else multSepTail response
  else multSepTail response

/-- The judgement synonyms mapped to the canonical `'正确'`. -/
def yesWords : List (List Char) :=
  ["正确".data, "对".data, "true".data, "√".data, "yes".data, "是".data]

/-- The judgement synonyms mapped to the canonical `'错误'`. -/
def noWords : List (List Char) :=
  ["错误".data, "错".data, "false".data, "×".data, "no".data, "否".data]

/-- The `question_type == "judgement"` branch of `extract_answer`, applied to
the stripped response: `word in response_lower` substring tests, the
`'正确'` set first. -/
def extractJudgement (response : List Char) : List Char :=
  let low := response.map Char.toLower
  if yesWords.any (fun w => containsSeq w low) then "正确".data
  else if noWords.any (fun w => containsSeq w low) then "错误".data
  else response

/-- The body of `extract_answer` after `response = ai_response.strip()`.
The `"single"` branch only logs a warning and returns the response either
way, so it is the identity here. -/
def extractCore (response : List Char) (question_type : List Char) : List Char :=
  if question_type = "single".data ∨ question_type = "multiple".data then
    if question_type = "single".data then response
    else extractMultiple response
  else if question_type = "judgement".data then extractJudgement response
  else response

/-- `extract_answer(ai_response, question_type)`: blank input (empty or
whitespace-only) is returned as-is, otherwise the stripped response is
processed per question type. -/
def extract_answer (ai_response : List Char) (question_type : List Char) : List Char :=
  if ai_response = [] ∨ pyStrip ai_response = [] then ai_response
  else extractCore (pyStrip ai_response) question_type

/-! ## Theorems -/

/-- The `consecutive_failures` counter of proxy `p` as read by
`record_failure` (`self.proxy_health.get(p, {}).get('consecutive_failures', 0)`). -/
def consecutive_failures_of (fm : FailoverManager) (p : String) : Nat :=
  ((lookupKey fm.proxyHealth p).map (·.consecutiveFailures)).getD 0

/-- C6: over `record_success`/`record_failure` sequences, `consecutiveFailures`
of proxy `p` grows by exactly one on each recorded failure of `p`, is reset to
exactly 0 by the next recorded success of `p`, and is unchanged by records
for any other proxy. -/
theorem C6_consecutive_failures_invariant (fm : FailoverManager) (p q : String)
    (t : Int) (err : Option String) (rt : Option ℚ) :
    consecutive_failures_of (record_failure fm p t err) p
        = consecutive_failures_of fm p + 1 ∧
    consecutive_failures_of (record_success fm p t rt) p = 0 ∧
    (q ≠ p → consecutive_failures_of (record_failure fm q t err) p
        = consecutive_failures_of fm p) ∧
    (q ≠ p → consecutive_failures_of (record_success fm q t rt) p
        = consecutive_failures_of fm p) := by
  refine ⟨?_, ?_, ?_, ?_⟩
  · simp [consecutive_failures_of, record_failure, lookupKey_setKey_self]
  · simp [consecutive_failures_of, record_success, lookupKey_setKey_self]
  · intro hqp
    simp [consecutive_failures_of, record_failure, lookupKey_setKey_ne _ _ _ _ hqp]
  · intro hqp
    simp [consecutive_failures_of, record_success, lookupKey_setKey_ne _ _ _ _ hqp]

/-- Witness for C6 at a concrete state: a failure for `"a"` takes the counter
of `"a"` from 0 to 1, a success resets it, and records for `"b"` leave it
alone. -/
theorem C6_consecutive_failures_invariant_witness :
    consecutive_failures_of (record_failure initFM "a" 50 none) "a"
        = consecutive_failures_of initFM "a" + 1 ∧
    consecutive_failures_of (record_success initFM "a" 50 none) "a" = 0 ∧
    ("b" ≠ "a" → consecutive_failures_of (record_failure initFM "b" 50 none) "a"
        = consecutive_failures_of initFM "a") ∧
    ("b" ≠ "a" → consecutive_failures_of (record_success initFM "b" 50 none) "a"
        = consecutive_failures_of initFM "a") :=
  C6_consecutive_failures_invariant initFM "a" "b" 50 none none

/-- C10: a proxy with no recorded success and no recorded failure (no entry
in any of the bookkeeping dicts) is reported healthy, and its diagnostic
snapshot is the fixed `'unknown'` default: zero consecutive failures, zero
recent failures and successes, success rate and average response time `0.0`,
circuit breaker closed. -/
theorem C10_unknown_proxy_defaults (fm : FailoverManager) (p : String) (now : Int)
    (hen : fm.enabled = true)
    (hh : lookupKey fm.proxyHealth p = none)
    (hf : lookupKey fm.failureCounts p = none)
    (hs : lookupKey fm.successCounts p = none) :
    (is_proxy_healthy fm p now).1 = true ∧
    get_proxy_health_status fm p now false = some
      { status := .unknown
        lastSuccess := none
        lastFailure := none
        consecutiveFailures := 0
        totalSuccesses := none
        lastError := none
        recentFailures := 0
        recentSuccesses := 0
        successRate := 0
        avgResponseTime := 0
        circuitBreakerOpen := false } := by
  have hbreaker : is_circuit_breaker_open fm p now = false := by
    simp [is_circuit_breaker_open, recent_count, hf, hs, min_requests_for_circuit_breaker]
  constructor
  · simp [is_proxy_healthy, hen, hh, health_check_tail, hbreaker, hf]
  · simp [get_proxy_health_status, get_proxy_health_status_body, hh]

/-- Witness for C10: the freshly initialized manager knows nothing about
proxy `"x"`. -/
theorem C10_unknown_proxy_defaults_witness :
    (is_proxy_healthy initFM "x" 0).1 = true ∧
    get_proxy_health_status initFM "x" 0 false = some
      { status := .unknown
        lastSuccess := none
        lastFailure := none
        consecutiveFailures := 0
        totalSuccesses := none
        lastError := none
        recentFailures := 0
        recentSuccesses := 0
        successRate := 0
        avgResponseTime := 0
        circuitBreakerOpen := false } :=
  C10_unknown_proxy_defaults initFM "x" 0 rfl rfl rfl rfl

/-- C4 (failing evaluation): `get_all_health_status` never returns once any
proxy has recorded health state.  It takes the non-reentrant `self.lock` and
then calls `self.get_proxy_health_status` — which blocks forever trying to
take the same lock — for every key of `self.proxy_health`; here, after a
single recorded failure for `"p1"`, the call deadlocks (`none`). -/
theorem C4_get_all_health_status_deadlocks :
    get_all_health_status (record_failure initFM "p1" 1000 none) 1000 = none := by
  decide

/-- C5: a proxy marked `'unhealthy'` is reported healthy again by
`is_proxy_healthy` exactly when more than `recovery_time` (600 s) has elapsed
since its last recorded failure (the source compares with a strict `>`), with
no recorded success needed in between: the decision depends only on the
stored `last_failure` timestamp. -/
theorem C5_recovery_after_timeout (fm : FailoverManager) (p : String) (hi : HealthInfo)
    (now lf : Int)
    (hen : fm.enabled = true)
    (hhi : lookupKey fm.proxyHealth p = some hi)
    (hst : hi.status = .unhealthy)
    (hlf : hi.lastFailure = some lf) :
    ((is_proxy_healthy fm p now).1 = true ↔ recovery_time < now - lf) := by
  rw [is_proxy_healthy, if_pos hen, hhi]
  simp only [hst, if_pos rfl, hlf]
  by_cases h : recovery_time < now - lf
  · simp [h]
  · simp [h]

/-- The manager state after three consecutive failures of proxy `"p"` at
times 1000, 1001, 1002. -/
def fmThreeFailures : FailoverManager :=
  record_failure (record_failure (record_failure initFM "p" 1000 none) "p" 1001 none)
    "p" 1002 none

/-- Witness for C5: after the three failures at 1000–1002, proxy `"p"` is
unhealthy with `last_failure = 1002`; at time 1700 (698 s later) the theorem
applies and the right-hand side evaluates to `True`. -/
theorem C5_recovery_after_timeout_witness :
    ((is_proxy_healthy fmThreeFailures "p" 1700).1 = true ↔ recovery_time < 1700 - 1002) :=
  C5_recovery_after_timeout fmThreeFailures "p"
    { status := .unhealthy
      lastFailure := some 1002
      consecutiveFailures := 3
      recentFailures := some 3
      lastError := some none }
    1700 1002 (by decide) (by decide) (by decide) (by decide)

/-- If at least `min_requests_for_circuit_breaker` requests fall inside the
window and at least half of them are failures, the circuit breaker is open. -/
theorem breaker_open_of_rate (fm : FailoverManager) (p : String) (now : Int)
    (hmin : min_requests_for_circuit_breaker ≤
      recent_count fm.failureCounts p now + recent_count fm.successCounts p now)
    (hrate : recent_count fm.failureCounts p now + recent_count fm.successCounts p now ≤
      2 * recent_count fm.failureCounts p now) :
    is_circuit_breaker_open fm p now = true := by
  have hmin' : 10 ≤ recent_count fm.failureCounts p now + recent_count fm.successCounts p now :=
    hmin
  rw [is_circuit_breaker_open]
  rw [if_neg (by omega)]
  have htot : (0 : ℚ) <
      ((recent_count fm.failureCounts p now + recent_count fm.successCounts p now : ℕ) : ℚ) := by
    exact_mod_cast (by omega :
      0 < recent_count fm.failureCounts p now + recent_count fm.successCounts p now)
  have hq : circuit_breaker_threshold ≤ (recent_count fm.failureCounts p now : ℚ) /
      ((recent_count fm.failureCounts p now + recent_count fm.successCounts p now : ℕ) : ℚ) := by
    rw [circuit_breaker_threshold, div_le_div_iff₀ (by norm_num) htot]
    push_cast
    have : ((recent_count fm.failureCounts p now + recent_count fm.successCounts p now : ℕ) : ℚ) ≤
        ((2 * recent_count fm.failureCounts p now : ℕ) : ℚ) := by exact_mod_cast hrate
    push_cast at this
    linarith
  exact decide_eq_true hq

/-- Reachability invariant of `FailoverManager` needed below: when a proxy's
stored status is `'unhealthy'`, the entry was written by `record_failure`, so
`last_failure` is present and is at least as late as every time in that
proxy's failure list (`record_failure` always stamps the newest time, and
wall-clock time is monotone). -/
def health_inv (fm : FailoverManager) : Prop :=
  ∀ e ∈ fm.proxyHealth, e.2.status = PStatus.unhealthy →
    e.2.lastFailure.isSome = true ∧
    ∀ t ∈ (lookupKey fm.failureCounts e.1).getD [], t ≤ e.2.lastFailure.getD 0

/-- C2: whenever a proxy accumulates at least `min_requests_for_circuit_breaker`
(10) requests within the failure window with a failure rate of at least 0.5
(i.e. `recentFailures ≥ recentSuccesses`), `is_proxy_healthy` reports it
unhealthy — regardless of `consecutiveFailures` (the hypotheses place no
constraint on it, so failures interleaved with successes are covered). -/
theorem C2_circuit_breaker_excludes (fm : FailoverManager) (p : String) (now : Int)
    (hen : fm.enabled = true)
    (hinv : health_inv fm)
    (hmin : min_requests_for_circuit_breaker ≤
      recent_count fm.failureCounts p now + recent_count fm.successCounts p now)
    (hrate : recent_count fm.failureCounts p now + recent_count fm.successCounts p now ≤
      2 * recent_count fm.failureCounts p now) :
    (is_proxy_healthy fm p now).1 = false := by
  have hopen := breaker_open_of_rate fm p now hmin hrate
  have htail : health_check_tail fm p now = false := by
    rw [health_check_tail, if_pos hopen]
  have hmin' : 10 ≤ recent_count fm.failureCounts p now + recent_count fm.successCounts p now :=
    hmin
  rw [is_proxy_healthy, if_pos hen]
  cases hq : lookupKey fm.proxyHealth p with
  | none => simpa using htail
  | some hi =>
    by_cases hst : hi.status = PStatus.unhealthy
    · obtain ⟨hsome, hbound⟩ := hinv (p, hi) (lookupKey_mem hq) hst
      obtain ⟨lf, hlf⟩ := Option.isSome_iff_exists.mp hsome
      -- some failure lies inside the window; `last_failure` is no older.
      have hrfpos : 0 < recent_count fm.failureCounts p now := by omega
      rw [recent_count] at hrfpos
      obtain ⟨t, htmem⟩ := List.exists_mem_of_length_pos hrfpos
      rw [List.mem_filter] at htmem
      obtain ⟨htmem, htwin⟩ := htmem
      have htlf : t ≤ lf := by
        have := hbound t htmem
        rwa [hlf, Option.getD_some] at this
      have htwin' : now - failure_window < t := of_decide_eq_true htwin
      have hnorec : ¬ recovery_time < now - lf := by
        have hw : failure_window = (300 : Int) := rfl
        have hr : recovery_time = (600 : Int) := rfl
        omega
      have hlf' : hi.lastFailure = some lf := hlf
      simp only [hst, eq_self_iff_true, if_true, hlf']
      rw [if_neg hnorec]
    · simp only [if_neg hst]
      exact htail

/-- Ten requests for proxy `"p"`: failures at 100, 102, 104, 106, 108
interleaved with successes at 101, 103, 105, 107, 109 (so the last record is
a success and `consecutiveFailures = 0`). -/
def fmInterleaved : FailoverManager :=
  (List.range 5).foldl
    (fun fm i =>
      record_success (record_failure fm "p" (100 + 2 * (i : Int)) none)
        "p" (101 + 2 * (i : Int)) none)
    initFM

/-- Witness for C2: `fmInterleaved` satisfies the invariant (its only health
entry is `'healthy'`), has 5 + 5 = 10 windowed requests at time 109 with
failure rate exactly 0.5, and `consecutive_failures_of` is 0 — yet the proxy
is reported unhealthy. -/
theorem C2_circuit_breaker_excludes_witness :
    (is_proxy_healthy fmInterleaved "p" 109).1 = false :=
  C2_circuit_breaker_excludes fmInterleaved "p" 109 (by decide)
    (by unfold health_inv; decide) (by decide) (by decide)

/-- One `record_failure` step extends the stored failure list: any sublist of
the old list whose entries (and the new time) lie inside the new window
survives the append-then-filter. -/
theorem failures_step (fm : FailoverManager) (p : String) (t : Int) (e : Option String)
    (l : List Int) (hl : List.Sublist l ((lookupKey fm.failureCounts p).getD []))
    (hall : ∀ x ∈ l ++ [t], t - failure_window < x) :
    List.Sublist (l ++ [t])
      ((lookupKey (record_failure fm p t e).failureCounts p).getD []) := by
  have hfc : lookupKey (record_failure fm p t e).failureCounts p
      = some ((((lookupKey fm.failureCounts p).getD []) ++ [t]).filter
        (fun x => decide (t - failure_window < x))) := by
    simp [record_failure, lookupKey_setKey_self]
  rw [hfc, Option.getD_some]
  have h1 : (l ++ [t]).filter (fun x => decide (t - failure_window < x)) = l ++ [t] :=
    List.filter_eq_self.mpr (fun a ha => decide_eq_true (hall a ha))
  have h2 := List.Sublist.filter (fun x => decide (t - failure_window < x))
    (List.Sublist.append hl (List.Sublist.refl [t]))
  rwa [h1] at h2

/-- After three consecutive `record_failure` calls at non-decreasing times
inside one failure window, the stored failure list of `p` contains all three
entries. -/
theorem failures_sublist_three (fm : FailoverManager) (p : String) (t1 t2 t3 : Int)
    (e1 e2 e3 : Option String) (h12 : t1 ≤ t2) (h23 : t2 ≤ t3)
    (hwin : t3 - t1 < failure_window) :
    List.Sublist [t1, t2, t3]
      ((lookupKey (record_failure (record_failure (record_failure fm p t1 e1) p t2 e2)
        p t3 e3).failureCounts p).getD []) := by
  have hW : (0 : Int) < failure_window := by decide
  have s1 : List.Sublist [t1]
      ((lookupKey (record_failure fm p t1 e1).failureCounts p).getD []) := by
    have := failures_step fm p t1 e1 [] (List.nil_sublist _)
      (by intro x hx; simp at hx; omega)
    simpa using this
  have s2 : List.Sublist [t1, t2]
      ((lookupKey (record_failure (record_failure fm p t1 e1) p t2
        e2).failureCounts p).getD []) := by
    have := failures_step (record_failure fm p t1 e1) p t2 e2 [t1] s1
      (by intro x hx; simp at hx; rcases hx with rfl | rfl <;> omega)
    simpa using this
  have := failures_step (record_failure (record_failure fm p t1 e1) p t2 e2) p t3 e3
    [t1, t2] s2
    (by intro x hx; simp at hx; rcases hx with rfl | rfl | rfl <;> omega)
  simpa using this

/-- The health entry written by `record_failure`. -/
theorem proxyHealth_record_failure (fm : FailoverManager) (p : String) (t : Int)
    (e : Option String) :
    lookupKey (record_failure fm p t e).proxyHealth p
      = some { status := (if max_failures ≤ ((((lookupKey fm.failureCounts p).getD [])
                  ++ [t]).filter (fun x => decide (t - failure_window < x))).length
                then PStatus.unhealthy else PStatus.degraded),
               lastFailure := some t,
               consecutiveFailures :=
                 ((((lookupKey fm.proxyHealth p).map (·.consecutiveFailures)).getD 0) + 1),
               recentFailures := some ((((lookupKey fm.failureCounts p).getD [])
                 ++ [t]).filter (fun x => decide (t - failure_window < x))).length,
               lastError := some e } := by
  simp [record_failure, lookupKey_setKey_self]

/-- The health entry written by `record_success`. -/
theorem proxyHealth_record_success (fm : FailoverManager) (p : String) (t : Int)
    (rt : Option ℚ) :
    lookupKey (record_success fm p t rt).proxyHealth p
      = some { status := PStatus.healthy,
               lastSuccess := some t,
               consecutiveFailures := 0,
               totalSuccesses := some ((((lookupKey fm.successCounts p).getD [])
                 ++ [t]).filter (fun x => decide (t - failure_window < x))).length } := by
  simp [record_success, lookupKey_setKey_self]

/-- C1 (amended): after `max_failures` (3) consecutive `record_failure` calls
for `p` within the failure window, `is_proxy_healthy(p)` is `false`
immediately afterwards — and it is STILL `false` after a single subsequent
`record_success` while those failures remain within the window: the success
resets the stored status flag to `'healthy'`, but the final windowed
failure-count check (`recent_failures < max_failures`) still sees the three
failures. -/
theorem C1_failures_then_success (fm : FailoverManager) (p : String)
    (t1 t2 t3 t4 : Int) (e1 e2 e3 : Option String) (rt : Option ℚ)
    (hen : fm.enabled = true) (h12 : t1 ≤ t2) (h23 : t2 ≤ t3) (h34 : t3 ≤ t4)
    (hwin : t4 - t1 < failure_window) :
    (is_proxy_healthy (record_failure (record_failure (record_failure fm p t1 e1) p t2 e2)
        p t3 e3) p t3).1 = false ∧
    (is_proxy_healthy (record_success (record_failure (record_failure
        (record_failure fm p t1 e1) p t2 e2) p t3 e3) p t4 rt) p t4).1 = false := by
  have hW : (0 : Int) < failure_window := by decide
  have hwin3 : t3 - t1 < failure_window := by omega
  have hsub := failures_sublist_three fm p t1 t2 t3 e1 e2 e3 h12 h23 hwin3
  have hfc3 : lookupKey (record_failure (record_failure (record_failure fm p t1 e1) p t2 e2)
      p t3 e3).failureCounts p
      = some ((((lookupKey (record_failure (record_failure fm p t1 e1) p t2 e2).failureCounts
        p).getD []) ++ [t3]).filter (fun x => decide (t3 - failure_window < x))) := by
    simp [record_failure, lookupKey_setKey_self]
  rw [hfc3, Option.getD_some] at hsub
  have hlen : max_failures ≤ ((((lookupKey (record_failure (record_failure fm p t1 e1) p t2
      e2).failureCounts p).getD []) ++ [t3]).filter
      (fun x => decide (t3 - failure_window < x))).length := by
    have := hsub.length_le
    simpa using this
  constructor
  · -- immediately after the third failure
    have hhp3 := proxyHealth_record_failure
      (record_failure (record_failure fm p t1 e1) p t2 e2) p t3 e3
    rw [if_pos hlen] at hhp3
    have hnorec : ¬ recovery_time < t3 - t3 := by
      have hr : recovery_time = (600 : Int) := rfl
      omega
    have hen3 : (record_failure (record_failure (record_failure fm p t1 e1) p t2 e2)
        p t3 e3).enabled = true := hen
    rw [is_proxy_healthy, if_pos hen3, hhp3]
    simp only [eq_self_iff_true, if_true]
    rw [if_neg hnorec]
  · -- after a single subsequent success at t4
    have hhp4 := proxyHealth_record_success
      (record_failure (record_failure (record_failure fm p t1 e1) p t2 e2) p t3 e3) p t4 rt
    have hen4 : (record_success (record_failure (record_failure
        (record_failure fm p t1 e1) p t2 e2) p t3 e3) p t4 rt).enabled = true := hen
    rw [is_proxy_healthy, if_pos hen4, hhp4]
    show health_check_tail (record_success (record_failure (record_failure
        (record_failure fm p t1 e1) p t2 e2) p t3 e3) p t4 rt) p t4 = false
    rw [health_check_tail]
    cases hbr : is_circuit_breaker_open (record_success (record_failure (record_failure
        (record_failure fm p t1 e1) p t2 e2) p t3 e3) p t4 rt) p t4 with
    | true => simp
    | false =>
      rw [if_neg (by simp)]
      have hfc4 : lookupKey (record_success (record_failure (record_failure
          (record_failure fm p t1 e1) p t2 e2) p t3 e3) p t4 rt).failureCounts p
          = some ((((lookupKey (record_failure (record_failure fm p t1 e1) p t2
            e2).failureCounts p).getD []) ++ [t3]).filter
            (fun x => decide (t3 - failure_window < x))) := hfc3
      rw [hfc4]
      have hkeep : [t1, t2, t3].filter (fun x => decide (t4 - failure_window < x))
          = [t1, t2, t3] := by
        apply List.filter_eq_self.mpr
        intro a ha
        simp at ha
        rcases ha with rfl | rfl | rfl <;> exact decide_eq_true (by omega)
      have hsub4 := List.Sublist.filter (fun x => decide (t4 - failure_window < x)) hsub
      rw [hkeep] at hsub4
      have hlen4 : max_failures ≤ (((((lookupKey (record_failure (record_failure fm p t1 e1)
          p t2 e2).failureCounts p).getD []) ++ [t3]).filter
          (fun x => decide (t3 - failure_window < x))).filter
          (fun x => decide (t4 - failure_window < x))).length := by
        have := hsub4.length_le
        simpa using this
      exact decide_eq_false (Nat.not_lt.mpr hlen4)

/-- C1 (counterexample to the claim as stated): three failures for `"p"` at
1000–1002 make it unhealthy; the claim says a single `record_success` (here
at 1003) makes `is_proxy_healthy(p)` true again, but it evaluates to
`false` — the three failures are still inside the 300 s window. -/
theorem C1_counterexample :
    (is_proxy_healthy (record_success fmThreeFailures "p" 1003 none) "p" 1003).1 = false := by
  decide

/-- Witness for C1 (amended) at a concrete trace: failures at 2000, 2001,
2002 and a success at 2003. -/
theorem C1_failures_then_success_witness :
    (is_proxy_healthy (record_failure (record_failure (record_failure initFM "q" 2000 none)
        "q" 2001 none) "q" 2002 none) "q" 2002).1 = false ∧
    (is_proxy_healthy (record_success (record_failure (record_failure
        (record_failure initFM "q" 2000 none) "q" 2001 none) "q" 2002 none) "q" 2003 none)
        "q" 2003).1 = false :=
  C1_failures_then_success initFM "q" 2000 2001 2002 2003 none none none none rfl
    (by decide) (by decide) (by decide) (by decide)

/-- A previously loaded good proxy. -/
def goodProxy : ApiProxy :=
  { name := "Good", api_base := "http://good", api_keys := ["k1"], model := "m",
    models := ["m"] }

/-- A proxy record with no `name` field (invalid per the spec, which requires
the whole load to fail). -/
def recordMissingName : ProxyRecord :=
  { api_base := some "http://x", api_keys := some ["k"], model := some "m",
    models := some ["m"], is_active := some true, priority := some 1 }

/-- C3 (counterexample to the claim as stated): loading a single record that
is missing `name` over a pool holding a good proxy does NOT fail — it
replaces the registry with a defaulted `'Unknown API'` proxy (the previous
snapshot is gone); and a load error replaces the previous good configuration
with the empty proxy list. -/
theorem C3_counterexample :
    (load_proxies { proxies := [goodProxy] } (.fileOk [recordMissingName])).proxies
      = [{ name := "Unknown API", api_base := "http://x", api_keys := ["k"], model := "m",
           models := ["m"], is_active := true, priority := 1 }] ∧
    (load_proxies { proxies := [goodProxy] } .fatal).proxies = [] := by
  constructor
  · decide
  · decide

/-- C3 (amended): registry load is neither validated nor snapshot-preserving:
every record loads (missing fields are defaulted — `'Unknown API'`, empty
base URL, empty key/model lists are accepted), the result is independent of
the previously loaded registry, and a load error resets the registry to the
empty proxy list instead of keeping the last good configuration. -/
theorem C3_load_replaces_unvalidated (pool pool' : ApiProxyPool) (src : LoadSource)
    (rs : List ProxyRecord) :
    load_proxies pool src = load_proxies pool' src ∧
    (src = .fileOk rs → (load_proxies pool src).proxies.length = rs.length) ∧
    (src = .fileError rs → (load_proxies pool src).proxies.length = rs.length) ∧
    (src = .fatal → (load_proxies pool src).proxies = []) := by
  refine ⟨?_, ?_, ?_, ?_⟩
  · cases src <;> rfl
  · rintro rfl
    simp [load_proxies, List.length_insertionSort]
  · rintro rfl
    simp [load_proxies, List.length_insertionSort]
  · rintro rfl
    rfl

/-- Witness for C3 (amended): two records (one of them invalid per the spec)
loaded over two different prior pools. -/
theorem C3_load_replaces_unvalidated_witness :
    load_proxies { proxies := [goodProxy] } (.fileOk [recordMissingName])
      = load_proxies { proxies := [] } (.fileOk [recordMissingName]) ∧
    (LoadSource.fileOk [recordMissingName] = .fileOk [recordMissingName] →
      (load_proxies { proxies := [goodProxy] }
        (.fileOk [recordMissingName])).proxies.length = [recordMissingName].length) ∧
    (LoadSource.fileOk [recordMissingName] = .fileError [recordMissingName] →
      (load_proxies { proxies := [goodProxy] }
        (.fileOk [recordMissingName])).proxies.length = [recordMissingName].length) ∧
    (LoadSource.fileOk [recordMissingName] = .fatal →
      (load_proxies { proxies := [goodProxy] } (.fileOk [recordMissingName])).proxies = []) :=
  C3_load_replaces_unvalidated { proxies := [goodProxy] } { proxies := [] }
    (.fileOk [recordMissingName]) [recordMissingName]

/-- A fresh `SimpleCache()` (default 86400 s expiration). -/
def emptyCache : SimpleCache := {}

/-- C7 (counterexample to the claim as stated): the triples
`("a|b", "c", "d")` and `("a", "b|c", "d")` differ, yet after
`set("a|b", "ans", "c", "d")` the lookup `get("a", "b|c", "d")` is a HIT:
both sides join to the same content string `"a|b|c|d"`, so the md5 keys
coincide.  The claim demands a miss for every differing triple. -/
theorem C7_counterexample :
    (cache_get (cache_set emptyCache "a|b" "ans" "c" "d" 0) "a" "b|c" "d" 0).1
      = some "ans" ∧
    ("a" : String) ≠ "a|b" := by
  constructor
  · decide
  · decide

/-- C7 (amended): starting from an empty cache, after
`set(q, answer, t, o)` a lookup `get(q', t', o')` (within the TTL) hits
exactly when the delimiter-joined content strings `q'|t'|o'` and `q|t|o`
coincide.  Matching all three fields exactly is sufficient; but distinct
triples whose fields contain the `'|'` delimiter can produce the same joined
string and therefore also hit. -/
theorem C7_cache_hit_iff_key (q t o q' t' o' ans : String) (now later : Int)
    (hfresh : later - now < 86400) :
    (cache_get (cache_set emptyCache q ans t o now) q' t' o' later).1
      = (if simple_cache_key q' t' o' = simple_cache_key q t o then some ans else none) := by
  by_cases hkey : simple_cache_key q' t' o' = simple_cache_key q t o
  · simp only [cache_get, cache_set, hkey, lookupKey_setKey_self]
    simp [emptyCache, hfresh, hkey]
  · simp only [cache_get, cache_set]
    rw [lookupKey_setKey_ne _ _ _ _ (fun h => hkey h.symm)]
    simp [emptyCache, lookupKey, hkey]

/-- Witness for C7 (amended): an exact-match lookup right after the store
hits. -/
theorem C7_cache_hit_iff_key_witness :
    (cache_get (cache_set emptyCache "Q1" "正确" "judgement" "" 5) "Q1" "judgement" "" 6).1
      = (if simple_cache_key "Q1" "judgement" "" = simple_cache_key "Q1" "judgement" ""
         then some "正确" else none) :=
  C7_cache_hit_iff_key "Q1" "judgement" "" "Q1" "judgement" "" "正确" 5 6 (by decide)

/-- The head of a `dropWhile` result never satisfies the predicate. -/
theorem dropWhile_head_not (p : Char → Bool) (l l' : List Char) (a : Char)
    (h : l.dropWhile p = a :: l') : p a = false := by
  induction l with
  | nil => simp at h
  | cons b l ih =>
    rw [List.dropWhile_cons] at h
    by_cases hb : p b
    · rw [if_pos hb] at h
      exact ih h
    · rw [if_neg hb] at h
      injection h with h1 _
      subst h1
      simpa using hb

/-- `str.strip()` is idempotent. -/
theorem pyStrip_idem (s : List Char) : pyStrip (pyStrip s) = pyStrip s := by
  rw [pyStrip, pyStrip]
  have h1 : ((s.dropWhile pyIsSpace).rdropWhile pyIsSpace).dropWhile pyIsSpace
      = (s.dropWhile pyIsSpace).rdropWhile pyIsSpace := by
    rcases hB : (s.dropWhile pyIsSpace).rdropWhile pyIsSpace with _ | ⟨a, B'⟩
    · rfl
    · have hpre : (s.dropWhile pyIsSpace).rdropWhile pyIsSpace <+: s.dropWhile pyIsSpace :=
        List.rdropWhile_prefix _ _
      rw [hB] at hpre
      obtain ⟨tail, htail⟩ := hpre
      have hhead : pyIsSpace a = false :=
        dropWhile_head_not pyIsSpace s (B' ++ tail) a
          (by rw [← htail]; simp)
      rw [List.dropWhile_cons, if_neg (by simp [hhead])]
  rw [h1, List.rdropWhile_idempotent]

/-- C9 (counterexample to the claim as stated): on the whitespace-only input
`" "`, `extract_answer` returns the input UNSTRIPPED (the blank-input guard
`if not ai_response or not ai_response.strip(): return ai_response` fires),
while the claim demands the trimmed text `""`. -/
theorem C9_counterexample :
    extract_answer [' '] "completion".data = [' '] ∧ pyStrip [' '] = [] := by
  constructor
  · decide
  · decide

/-- C9 (amended): for NON-BLANK input (the blank case returns the raw text
unchanged), `extract_answer` strips leading and trailing whitespace before
any type-specific handling — processing `s` is the same as processing the
already-stripped `s` — and for `"completion"` it returns exactly the
stripped text. -/
theorem C9_trim_first (s qt : List Char) (h0 : s ≠ []) (h1 : pyStrip s ≠ []) :
    extract_answer s qt = extract_answer (pyStrip s) qt ∧
    extract_answer s "completion".data = pyStrip s := by
  have hns : ¬ (s = [] ∨ pyStrip s = []) := by
    rintro (h | h)
    · exact h0 h
    · exact h1 h
  have hns2 : ¬ (pyStrip s = [] ∨ pyStrip (pyStrip s) = []) := by
    rw [pyStrip_idem]
    rintro (h | h) <;> exact h1 h
  constructor
  · rw [extract_answer, if_neg hns, extract_answer, if_neg hns2, pyStrip_idem]
  · rw [extract_answer, if_neg hns, extractCore, if_neg (by decide), if_neg (by decide)]

/-- Witness for C9 (amended), on the spec's own example `" 北京 "`. -/
theorem C9_trim_first_witness :
    extract_answer " 北京 ".data "completion".data
      = extract_answer (pyStrip " 北京 ".data) "completion".data ∧
    extract_answer " 北京 ".data "completion".data = pyStrip " 北京 ".data :=
  C9_trim_first " 北京 ".data "completion".data (by decide) (by decide)

/-- C8 (counterexample to the claim as stated): `"不对"` ("not correct") is a
member of neither synonym set, so the claim demands it be returned unchanged —
but the code tests `word in response_lower` by SUBSTRING, finds the
`'正确'`-synonym `'对'` inside `"不对"`, and returns `"正确"`. -/
theorem C8_counterexample :
    extract_answer "不对".data "judgement".data = "正确".data ∧
    "不对".data ∉ yesWords ∧
    "不对".data ∉ noWords ∧
    "不对".data ≠ "正确".data := by
  refine ⟨by decide, by decide, by decide, by decide⟩

/-- C8 (amended): judgement normalization lowercases the trimmed text and
tests each synonym by SUBSTRING containment (`word in response_lower`), the
`'正确'` set first: text containing any member of {正确, 对, true, √, yes, 是}
maps to `'正确'`; text containing none of those but containing a member of
{错误, 错, false, ×, no, 否} maps to `'错误'`; text containing no member of
either set is returned as the trimmed text unchanged.  (Exact members of a
set are contained in themselves, so the claim's member → canonical direction
survives; the "neither" clause only holds for the containment reading.) -/
theorem C8_judgement_substring (s : List Char) (h0 : s ≠ []) (h1 : pyStrip s ≠ []) :
    ((∃ w ∈ yesWords, w <:+: (pyStrip s).map Char.toLower) →
      extract_answer s "judgement".data = "正确".data) ∧
    ((¬ ∃ w ∈ yesWords, w <:+: (pyStrip s).map Char.toLower) →
      (∃ w ∈ noWords, w <:+: (pyStrip s).map Char.toLower) →
      extract_answer s "judgement".data = "错误".data) ∧
    ((¬ ∃ w ∈ yesWords, w <:+: (pyStrip s).map Char.toLower) →
      (¬ ∃ w ∈ noWords, w <:+: (pyStrip s).map Char.toLower) →
      extract_answer s "judgement".data = pyStrip s) := by
  have hns : ¬ (s = [] ∨ pyStrip s = []) := by
    rintro (h | h)
    · exact h0 h
    · exact h1 h
  have hexpand : extract_answer s "judgement".data = extractJudgement (pyStrip s) := by
    rw [extract_answer, if_neg hns, extractCore, if_neg (by decide), if_pos rfl]
  have hyes : (yesWords.any fun w => containsSeq w ((pyStrip s).map Char.toLower)) = true
      ↔ ∃ w ∈ yesWords, w <:+: (pyStrip s).map Char.toLower := by
    simp [containsSeq, List.any_eq_true]
  have hno : (noWords.any fun w => containsSeq w ((pyStrip s).map Char.toLower)) = true
      ↔ ∃ w ∈ noWords, w <:+: (pyStrip s).map Char.toLower := by
    simp [containsSeq, List.any_eq_true]
  refine ⟨?_, ?_, ?_⟩
  · intro h
    rw [hexpand, extractJudgement, if_pos (hyes.mpr h)]
  · intro hy hn
    rw [hexpand, extractJudgement,
      if_neg (fun hcon => hy (hyes.mp hcon)), if_pos (hno.mpr hn)]
  · intro hy hn
    rw [hexpand, extractJudgement,
      if_neg (fun hcon => hy (hyes.mp hcon)), if_neg (fun hcon => hn (hno.mp hcon))]

/-- Witness for C8 (amended) at the exact member `"对"` (which maps to
`"正确"` via the first branch). -/
theorem C8_judgement_substring_witness :
    ((∃ w ∈ yesWords, w <:+: (pyStrip "对".data).map Char.toLower) →
      extract_answer "对".data "judgement".data = "正确".data) ∧
    ((¬ ∃ w ∈ yesWords, w <:+: (pyStrip "对".data).map Char.toLower) →
      (∃ w ∈ noWords, w <:+: (pyStrip "对".data).map Char.toLower) →
      extract_answer "对".data "judgement".data = "错误".data) ∧
    ((¬ ∃ w ∈ yesWords, w <:+: (pyStrip "对".data).map Char.toLower) →
      (¬ ∃ w ∈ noWords, w <:+: (pyStrip "对".data).map Char.toLower) →
      extract_answer "对".data "judgement".data = pyStrip "对".data) :=
  C8_judgement_substring "对".data (by decide) (by decide)
